import Mathlib

/-
Shallow embedding of the SET v0.3.4 language pipeline (pglg/setlang.py):
a line-based first-match-wins lexer, a recursive-descent parser with a flat
left-associative expression grammar, and a tree-walking interpreter over a
global mutable variable store.  Python machine-level details are modelled as
follows: Python ints are Lean Int, Python floats are exact rationals (no claim
here depends on IEEE rounding), Python dicts keyed by strings are association
lists, stdout is an accumulated list of printed lines, stdin is a list of
pending input lines, and raised exceptions are explicit error results.
Unbounded loops (the `wset` statement and the parser's token loops) take a
fuel parameter; running out of fuel is reported by a value distinct from every
genuine error of the source program.
-/

namespace SetLang

/-- Runtime value: Python int, float (modelled exactly as a rational), str or
bool, as produced and consumed by the interpreter. -/
inductive PyVal where
  | vint : Int → PyVal
  | vfloat : ℚ → PyVal
  | vstr : String → PyVal
  | vbool : Bool → PyVal
deriving DecidableEq, Repr

/-- Token with a type tag and a value, mirroring class Token: keywords and
punctuation carry their matched text, NUMBER carries an int or float, STRING
carries the unquoted text, IDENT carries the identifier. -/
structure Token where
  type : String
  value : PyVal
deriving DecidableEq, Repr

/-- The shapes of the regular expressions appearing in Lexer.token_spec. -/
inductive Pat where
  | numberP : Pat
  | stringP : Pat
  | identP : Pat
  | skipP : Pat
  | newlineP : Pat
  | litP : String → Pat
deriving DecidableEq, Repr

def isWordChar (c : Char) : Bool := c.isAlphanum || c = '_'

/-- Match one pattern at the start of the character list, returning the
matched characters and the rest.  numberP is `\d+(\.\d+)?` (greedy, the
fractional part needs at least one digit), stringP is `"[^"]*"`, identP is
`[a-zA-Z_]\w*`, skipP is `[ \t]+`, newlineP is `\n`, litP is a literal
keyword or punctuation string. -/
def matchPat : Pat → List Char → Option (List Char × List Char)
  | .numberP, cs =>
    let ds := cs.takeWhile Char.isDigit
    let rest := cs.dropWhile Char.isDigit
    if ds.isEmpty then none
    else
      match rest with
      | '.' :: rest2 =>
        let ds2 := rest2.takeWhile Char.isDigit
        if ds2.isEmpty then some (ds, rest)
        else some (ds ++ '.' :: ds2, rest2.dropWhile Char.isDigit)
      | _ => some (ds, rest)
  | .stringP, cs =>
    match cs with
    | '"' :: rest =>
      let body := rest.takeWhile (fun c => c ≠ '"')
      match rest.dropWhile (fun c => c ≠ '"') with
      | '"' :: rest2 => some ('"' :: (body ++ ['"']), rest2)
      | _ => none
    | _ => none
  | .identP, cs =>
    match cs with
    | c :: rest =>
      if c.isAlpha || c = '_' then
        some (c :: rest.takeWhile isWordChar, rest.dropWhile isWordChar)
      else none
    | [] => none
  | .skipP, cs =>
    let ws := cs.takeWhile (fun c => c = ' ' || c = '\t')
    if ws.isEmpty then none
    else some (ws, cs.dropWhile (fun c => c = ' ' || c = '\t'))
  | .newlineP, cs =>
    match cs with
    | '\n' :: rest => some (['\n'], rest)
    | _ => none
  | .litP kw, cs =>
    if kw.toList.isPrefixOf cs then some (kw.toList, cs.drop kw.toList.length)
    else none

/-- Lexer.token_spec, in source order.  The alternation is first-match-wins,
so an earlier entry shadows a later one wherever both match. -/
def token_spec : List (String × Pat) :=
  [("NUMBER", .numberP),
   ("STRING", .stringP),
   ("EQ", .litP "eq"),
   ("NEQ", .litP "neq"),
   ("LT", .litP "lt"),
   ("GT", .litP "gt"),
   ("LE", .litP "le"),
   ("GE", .litP "ge"),
   ("AND", .litP "and"),
   ("OR", .litP "or"),
   ("PL", .litP "pl"),
   ("MN", .litP "mn"),
   ("DP", .litP "dp"),
   ("NP", .litP "np"),
   ("VAR", .litP "var"),
   ("INT", .litP "int"),
   ("FLT", .litP "flt"),
   ("BOOL", .litP "bool"),
   ("SET", .litP "set"),
   ("IF", .litP "if"),
   ("WSET", .litP "wset"),
   ("FCE", .litP "fce"),
   ("TRY", .litP "try"),
   ("CATCH", .litP "catch"),
   ("TRUE", .litP "true"),
   ("FALSE", .litP "false"),
   ("LEN", .litP "len"),
   ("INP", .litP "inp"),
   ("IDENT", .identP),
   ("ASSIGN", .litP "="),
   ("LBRACE", .litP "\x7b"),
   ("RBRACE", .litP "\x7d"),
   ("COLON", .litP ":"),
   ("SKIP", .skipP),
   ("NEWLINE", .newlineP)]

/-- Try the patterns in declaration order at the current position and return
the first hit: the group name, the matched text and the remaining input. -/
def firstMatch : List (String × Pat) → List Char → Option (String × List Char × List Char)
  | [], _ => none
  | (k, p) :: rest, cs =>
    match matchPat p cs with
    | some (m, cs2) => some (k, m, cs2)
    | none => firstMatch rest cs

def digitsToNat (ds : List Char) : Nat :=
  ds.foldl (fun acc c => 10 * acc + (c.toNat - 48)) 0

/-- Convert a matched NUMBER text: float(v) if it contains a dot, else int(v).
The float value of a decimal literal is represented exactly. -/
def parseNumber (m : List Char) : PyVal :=
  if m.contains '.' then
    let ip := m.takeWhile (fun c => c ≠ '.')
    let fp := (m.dropWhile (fun c => c ≠ '.')).drop 1
    .vfloat ((digitsToNat ip : ℚ) + (digitsToNat fp : ℚ) / (10 : ℚ) ^ fp.length)
  else .vint (digitsToNat m)

/-- Build the token appended for a match of group k with text m: NUMBER and
STRING convert their text, SKIP and NEWLINE produce nothing, every other
group carries its matched text. -/
def mkToken : String → List Char → Option Token := fun k m =>
  if k = "NUMBER" then some ⟨"NUMBER", parseNumber m⟩
  else if k = "STRING" then some ⟨"STRING", .vstr (String.mk ((m.drop 1).dropLast))⟩
  else if k = "SKIP" || k = "NEWLINE" then none
  else some ⟨k, .vstr (String.mk m)⟩

/-- Scan one comment-stripped line the way re.finditer scans it: at each
position emit the first-match-wins token, or skip one character when no
pattern matches.  Every pattern matches at least one character, so fuel equal
to the line length is enough; running out of fuel just ends the scan. -/
def scanLine : Nat → List Char → List Token
  | 0, _ => []
  | _ + 1, [] => []
  | fuel + 1, c :: cs =>
    match firstMatch token_spec (c :: cs) with
    | some (k, m, rest) =>
      match mkToken k m with
      | some t => t :: scanLine fuel rest
      | none => scanLine fuel rest
    | none => scanLine fuel cs

def splitLinesGo (acc : List Char) : List Char → List (List Char)
  | [] => [acc.reverse]
  | '\n' :: [] => [acc.reverse]
  | '\n' :: c :: rest => acc.reverse :: splitLinesGo [] (c :: rest)
  | c :: rest => splitLinesGo (c :: acc) rest

/-- str.splitlines restricted to newline separators: no trailing empty line,
and the empty text has no lines at all. -/
def splitLines (cs : List Char) : List (List Char) :=
  match cs with
  | [] => []
  | _ => splitLinesGo [] cs

/-- Lexer.tokenize: process the source line by line, discard everything after
the first '#' on each line, and concatenate the per-line scans. -/
def tokenize (code : String) : List Token :=
  ((splitLines code.toList).map (fun line =>
    let l := line.takeWhile (fun c => c ≠ '#')
    scanLine l.length l)).flatten

/-- Expression node, mirroring the Python tuples ("NUM", v), ("STR", s),
("BOOL", b), ("VARREF", name), ("INP",), ("LEN", e) and the twelve binary
operator tuples (op, left, right) tagged with the operator token type. -/
inductive Expr where
  | NUM : PyVal → Expr
  | STR : String → Expr
  | BOOL : Bool → Expr
  | VARREF : String → Expr
  | INP : Expr
  | LEN : Expr → Expr
  | PL : Expr → Expr → Expr
  | MN : Expr → Expr → Expr
  | DP : Expr → Expr → Expr
  | NP : Expr → Expr → Expr
  | EQ : Expr → Expr → Expr
  | NEQ : Expr → Expr → Expr
  | LT : Expr → Expr → Expr
  | GT : Expr → Expr → Expr
  | LE : Expr → Expr → Expr
  | GE : Expr → Expr → Expr
  | AND : Expr → Expr → Expr
  | OR : Expr → Expr → Expr
deriving Repr

/-- Statement node, mirroring the Python tuples.  A branch of IF, WSET or TRY
is an Option Stmt because block_or_stmt can return None (Python stores None
in the tuple and run crashes on it); the missing else-branch of IF is the
same None. -/
inductive Stmt where
  | VAR : String → String → Expr → Stmt
  | SET : Expr → Stmt
  | IF : Expr → Option Stmt → Option Stmt → Stmt
  | WSET : Expr → Option Stmt → Stmt
  | BLOCK : List Stmt → Stmt
  | FCE : String → Stmt
  | TRY : Option Stmt → Option Stmt → Stmt
deriving Repr

/-- Parse-time failure: "parser desync" from eat, "bad expr" from factor,
noneErr where Python would crash reading .type of a missing current token,
and fuelOut, an artifact of the fuel parameter that no actual run of the
source parser produces. -/
inductive PErr where
  | desync : PErr
  | badExpr : PErr
  | noneErr : PErr
  | fuelOut : PErr
deriving DecidableEq, Repr

/-- The string payload of a token value (IDENT and keyword tokens always
carry one). -/
def valStr : PyVal → String
  | .vstr s => s
  | _ => ""

/-- Parser.eat: if the current token exists and has the expected type,
consume and return it, otherwise raise "parser desync". -/
def eat (ty : String) : List Token → Except PErr (Token × List Token)
  | [] => .error .desync
  | t :: rest => if t.type = ty then .ok (t, rest) else .error .desync

/-- Parser.factor: literal, identifier reference, inp, or len applied to one
nested factor; any other leading token (or none at all, where Python would
crash reading tok.type) is a hard parse failure. -/
def factor : List Token → Except PErr (Expr × List Token)
  | [] => .error .noneErr
  | t :: ts =>
    if t.type = "NUMBER" then .ok (.NUM t.value, ts)
    else if t.type = "STRING" then .ok (.STR (valStr t.value), ts)
    else if t.type = "TRUE" then .ok (.BOOL true, ts)
    else if t.type = "FALSE" then .ok (.BOOL false, ts)
    else if t.type = "IDENT" then .ok (.VARREF (valStr t.value), ts)
    else if t.type = "INP" then .ok (.INP, ts)
    else if t.type = "LEN" then
      match factor ts with
      | .ok (e, ts2) => .ok (.LEN e, ts2)
      | .error e => .error e
    else .error .badExpr

/-- The binary operator token types recognized by Parser.expr. -/
def opTypes : List String :=
  ["PL", "MN", "DP", "NP", "EQ", "NEQ", "LT", "GT", "LE", "GE", "AND", "OR"]

/-- Build the operator node (op, l, r).  Only called with op drawn from
opTypes; the final case covers "OR". -/
def mkBin (op : String) (l r : Expr) : Expr :=
  if op = "PL" then .PL l r
  else if op = "MN" then .MN l r
  else if op = "DP" then .DP l r
  else if op = "NP" then .NP l r
  else if op = "EQ" then .EQ l r
  else if op = "NEQ" then .NEQ l r
  else if op = "LT" then .LT l r
  else if op = "GT" then .GT l r
  else if op = "LE" then .LE l r
  else if op = "GE" then .GE l r
  else if op = "AND" then .AND l r
  else .OR l r

/-- The operator loop of Parser.expr: while the current token is a binary
operator, consume it and one more factor, nesting the new operator around
everything parsed so far (flat, left-associative, no precedence).  Each
iteration consumes at least one token, so fuel one beyond the remaining
token count never runs out. -/
def exprGo : Nat → Expr → List Token → Except PErr (Expr × List Token)
  | 0, _, _ => .error .fuelOut
  | _ + 1, n, [] => .ok (n, [])
  | fuel + 1, n, t :: rest =>
    if t.type ∈ opTypes then
      match factor rest with
      | .ok (f2, ts2) => exprGo fuel (mkBin t.type n f2) ts2
      | .error e => .error e
    else .ok (n, t :: rest)

/-- Parser.expr: one factor, then the operator loop. -/
def expr (ts : List Token) : Except PErr (Expr × List Token) :=
  match factor ts with
  | .ok (n, rest) => exprGo (rest.length + 1) n rest
  | .error e => .error e

/-- Parser.var_decl: var, then whatever token is current as the type slot
(Python reads self.current().type and crashes when no token is left), then
identifier, =, and the initializer expression. -/
def var_decl (ts : List Token) : Except PErr (Option Stmt × List Token) := do
  let (_, ts1) ← eat "VAR" ts
  match ts1 with
  | [] => .error .noneErr
  | t2 :: _ => do
    let (tt, ts2) ← eat t2.type ts1
    let (nameTok, ts3) ← eat "IDENT" ts2
    let (_, ts4) ← eat "ASSIGN" ts3
    let (v, ts5) ← expr ts4
    pure (some (.VAR tt.type (valStr nameTok.value) v), ts5)

/-- Parser.set_stmt. -/
def set_stmt (ts : List Token) : Except PErr (Option Stmt × List Token) := do
  let (_, ts1) ← eat "SET" ts
  let (e, ts2) ← expr ts1
  pure (some (.SET e), ts2)

/-- Parser.fce_stmt. -/
def fce_stmt (ts : List Token) : Except PErr (Option Stmt × List Token) := do
  let (_, ts1) ← eat "FCE" ts
  let (nameTok, ts2) ← eat "IDENT" ts1
  pure (some (.FCE (valStr nameTok.value)), ts2)

mutual

/-- Parser.statement: skip a bare literal or any unrecognized leading token
silently, or dispatch on the recognized statement keywords. -/
def statement : Nat → List Token → Except PErr (Option Stmt × List Token)
  | 0, _ => .error .fuelOut
  | _ + 1, [] => .ok (none, [])
  | fuel + 1, t :: rest =>
    if t.type ∈ ["STRING", "NUMBER", "TRUE", "FALSE"] then .ok (none, rest)
    else if t.type = "VAR" then var_decl (t :: rest)
    else if t.type = "SET" then set_stmt (t :: rest)
    else if t.type = "IF" then if_stmt fuel (t :: rest)
    else if t.type = "WSET" then wset_stmt fuel (t :: rest)
    else if t.type = "FCE" then fce_stmt (t :: rest)
    else if t.type = "TRY" then try_stmt fuel (t :: rest)
    else .ok (none, rest)

/-- Parser.if_stmt: condition, then-branch, and an optional else-branch
introduced by a bare colon. -/
def if_stmt : Nat → List Token → Except PErr (Option Stmt × List Token)
  | 0, _ => .error .fuelOut
  | fuel + 1, ts => do
    let (_, ts1) ← eat "IF" ts
    let (cond, ts2) ← expr ts1
    let (th, ts3) ← block_or_stmt fuel ts2
    match ts3 with
    | t2 :: rest3 =>
      if t2.type = "COLON" then do
        let (el, ts4) ← block_or_stmt fuel rest3
        pure (some (.IF cond th el), ts4)
      else pure (some (.IF cond th none), ts3)
    | [] => pure (some (.IF cond th none), [])

/-- Parser.wset_stmt. -/
def wset_stmt : Nat → List Token → Except PErr (Option Stmt × List Token)
  | 0, _ => .error .fuelOut
  | fuel + 1, ts => do
    let (_, ts1) ← eat "WSET" ts
    let (cond, ts2) ← expr ts1
    let (body, ts3) ← block_or_stmt fuel ts2
    pure (some (.WSET cond body), ts3)

/-- Parser.try_stmt: try-branch, mandatory catch keyword, catch-branch. -/
def try_stmt : Nat → List Token → Except PErr (Option Stmt × List Token)
  | 0, _ => .error .fuelOut
  | fuel + 1, ts => do
    let (_, ts1) ← eat "TRY" ts
    let (tb, ts2) ← block_or_stmt fuel ts1
    let (_, ts3) ← eat "CATCH" ts2
    let (cb, ts4) ← block_or_stmt fuel ts3
    pure (some (.TRY tb cb), ts4)

/-- Parser.block_or_stmt: a braced statement sequence, or a single statement
via the top-level dispatch. -/
def block_or_stmt : Nat → List Token → Except PErr (Option Stmt × List Token)
  | 0, _ => .error .fuelOut
  | fuel + 1, ts =>
    match ts with
    | t :: rest =>
      if t.type = "LBRACE" then do
        let (l, ts2) ← blockLoop fuel rest
        let (_, ts3) ← eat "RBRACE" ts2
        pure (some (.BLOCK l), ts3)
      else statement fuel ts
    | [] => statement fuel ts

/-- The statement loop inside Parser.block_or_stmt: collect statements until
a closing brace or the end of the tokens (the caller then eats the brace,
failing with "parser desync" at the end of input). -/
def blockLoop : Nat → List Token → Except PErr (List Stmt × List Token)
  | 0, _ => .error .fuelOut
  | _ + 1, [] => .ok ([], [])
  | fuel + 1, t :: rest =>
    if t.type = "RBRACE" then .ok ([], t :: rest)
    else
      match statement fuel (t :: rest) with
      | .error e => .error e
      | .ok (some s, ts2) =>
        match blockLoop fuel ts2 with
        | .ok (l, ts3) => .ok (s :: l, ts3)
        | .error e => .error e
      | .ok (none, ts2) => blockLoop fuel ts2

end

/-- The loop of Parser.parse: statements until the tokens are exhausted,
collecting the non-None results. -/
def parseGo : Nat → List Token → Except PErr (List Stmt)
  | _, [] => .ok []
  | 0, _ :: _ => .error .fuelOut
  | fuel + 1, t :: rest =>
    match statement fuel (t :: rest) with
    | .error e => .error e
    | .ok (some s, ts2) =>
      match parseGo fuel ts2 with
      | .ok l => .ok (s :: l)
      | .error e => .error e
    | .ok (none, ts2) => parseGo fuel ts2

/-- Parser.parse.  The source parser consumes at least one token per step
and needs no fuel; four units per remaining token is comfortably more than
any run can use, so fuelOut is unreachable from here. -/
def parse (ts : List Token) : Except PErr (List Stmt) :=
  parseGo (4 * ts.length + 4) ts

/-- Runtime failure raised during evaluation or execution: ZeroDivisionError,
TypeError, ValueError (failed int/float conversion of a string), EOFError
(input() with no line left).  All of them are caught alike by try/catch. -/
inductive PyErr where
  | zeroDiv : PyErr
  | typeErr : PyErr
  | valueErr : PyErr
  | eofErr : PyErr
deriving DecidableEq, Repr

/-- Interpreter state: the global variable dict, the pending stdin lines, and
the stdout lines printed so far. -/
structure SState where
  vars : List (String × PyVal)
  inp : List String
  out : List String
deriving DecidableEq, Repr

/-- Dict lookup (self.vars.get). -/
def dictGet : List (String × PyVal) → String → Option PyVal
  | [], _ => none
  | (k, v) :: rest, x => if k = x then some v else dictGet rest x

/-- Dict update (self.vars[n] = val): overwrite the existing key or append. -/
def dictSet : List (String × PyVal) → String → PyVal → List (String × PyVal)
  | [], x, v => [(x, v)]
  | (k, w) :: rest, x, v =>
    if k = x then (x, v) :: rest else (k, w) :: dictSet rest x v

/-- Python truthiness of a value: zero numbers, the empty string and False
are falsy, everything else is truthy. -/
def truthy : PyVal → Bool
  | .vint n => n ≠ 0
  | .vfloat q => q ≠ 0
  | .vstr s => s ≠ ""
  | .vbool b => b

/-- View a value as a Python int where ints and bools count (True is 1). -/
def intVal : PyVal → Option Int
  | .vint n => some n
  | .vbool b => some (if b then 1 else 0)
  | _ => none

/-- View a value as a number (int, float or bool); strings are not numbers. -/
def numVal : PyVal → Option ℚ
  | .vint n => some (n : ℚ)
  | .vfloat q => some q
  | .vbool b => some (if b then 1 else 0)
  | .vstr _ => none

/-- Python +: string concatenation on two strings, integer addition when no
float is involved, float addition otherwise, TypeError on a string mixed
with anything else. -/
def pyAdd : PyVal → PyVal → Except PyErr PyVal
  | .vstr a, .vstr b => .ok (.vstr (a ++ b))
  | a, b =>
    match intVal a, intVal b with
    | some x, some y => .ok (.vint (x + y))
    | _, _ =>
      match numVal a, numVal b with
      | some x, some y => .ok (.vfloat (x + y))
      | _, _ => .error .typeErr

/-- Python binary minus on numbers; any string operand is a TypeError. -/
def pySub (a b : PyVal) : Except PyErr PyVal :=
  match intVal a, intVal b with
  | some x, some y => .ok (.vint (x - y))
  | _, _ =>
    match numVal a, numVal b with
    | some x, some y => .ok (.vfloat (x - y))
    | _, _ => .error .typeErr

def strRepeat (s : String) (n : Int) : String :=
  String.join (List.replicate n.toNat s)

/-- Python *: numeric product, or string repetition when one operand is a
string and the other an int or bool (a negative count yields the empty
string); a string times a float or another string is a TypeError. -/
def pyMul : PyVal → PyVal → Except PyErr PyVal
  | .vstr a, b =>
    match intVal b with
    | some n => .ok (.vstr (strRepeat a n))
    | none => .error .typeErr
  | a, .vstr b =>
    match intVal a with
    | some n => .ok (.vstr (strRepeat b n))
    | none => .error .typeErr
  | a, b =>
    match intVal a, intVal b with
    | some x, some y => .ok (.vint (x * y))
    | _, _ =>
      match numVal a, numVal b with
      | some x, some y => .ok (.vfloat (x * y))
      | _, _ => .error .typeErr

/-- Python /: true division of numbers, always producing a float;
ZeroDivisionError on a zero divisor, TypeError on a string operand. -/
def pyDiv (a b : PyVal) : Except PyErr PyVal :=
  match numVal a, numVal b with
  | some x, some y => if y = 0 then .error .zeroDiv else .ok (.vfloat (x / y))
  | _, _ => .error .typeErr

/-- Python ==: numbers (ints, floats, bools) compare by numeric value,
strings compare as strings, a string never equals a number. -/
def pyEqB (a b : PyVal) : Bool :=
  match a, b with
  | .vstr x, .vstr y => x = y
  | .vstr _, _ => false
  | _, .vstr _ => false
  | _, _ => (numVal a).getD 0 = (numVal b).getD 0

/-- Python <: numeric order on numbers, lexicographic code-point order on two
strings, TypeError between a string and a number. -/
def pyLtB : PyVal → PyVal → Except PyErr Bool
  | .vstr a, .vstr b => .ok (decide (a < b))
  | a, b =>
    match numVal a, numVal b with
    | some x, some y => .ok (decide (x < y))
    | _, _ => .error .typeErr

def pyLeB : PyVal → PyVal → Except PyErr Bool
  | .vstr a, .vstr b => .ok (decide (a < b) || decide (a = b))
  | a, b =>
    match numVal a, numVal b with
    | some x, some y => .ok (decide (x ≤ y))
    | _, _ => .error .typeErr

/-- Python len: string length (code-point count); every other value the
program can build has no len and raises TypeError. -/
def pyLen : PyVal → Except PyErr PyVal
  | .vstr s => .ok (.vint (s.length : Int))
  | _ => .error .typeErr

def strToIntAux : List Char → Option Nat
  | [] => none
  | cs => if cs.all Char.isDigit then some (digitsToNat cs) else none

/-- Python int() applied to a string: an optional sign followed by digits
(surrounding whitespace and underscores are not modelled); anything else is
a ValueError. -/
def strToInt : String → Option Int
  | s =>
    match s.toList with
    | '-' :: rest => (strToIntAux rest).map (fun n => -(n : Int))
    | '+' :: rest => (strToIntAux rest).map (fun n => (n : Int))
    | cs => (strToIntAux cs).map (fun n => (n : Int))

/-- Python int(val): identity on ints, 0 or 1 on bools, truncation toward
zero on floats, digit parsing on strings (ValueError on failure). -/
def pyInt : PyVal → Except PyErr Int
  | .vint n => .ok n
  | .vbool b => .ok (if b then 1 else 0)
  | .vfloat q => .ok (if q < 0 then ⌈q⌉ else ⌊q⌋)
  | .vstr s =>
    match strToInt s with
    | some n => .ok n
    | none => .error .valueErr

def strToRat : String → Option ℚ
  | s =>
    match s.toList with
    | '-' :: rest =>
      (matchPat .numberP rest).bind (fun (m, left) =>
        if left.isEmpty then
          match parseNumber m with
          | .vint n => some (-(n : ℚ))
          | .vfloat q => some (-q)
          | _ => none
        else none)
    | cs =>
      (matchPat .numberP cs).bind (fun (m, left) =>
        if left.isEmpty then
          match parseNumber m with
          | .vint n => some ((n : ℚ))
          | .vfloat q => some q
          | _ => none
        else none)

/-- Python float(val): numbers and bools coerce to their numeric value,
strings parse as a decimal numeral (ValueError on failure). -/
def pyFloat : PyVal → Except PyErr ℚ
  | .vint n => .ok (n : ℚ)
  | .vbool b => .ok (if b then 1 else 0)
  | .vfloat q => .ok q
  | .vstr s =>
    match strToRat s with
    | some q => .ok q
    | none => .error .valueErr

/-- Text printed for a value, as Python str() renders it.  Floats are shown
from their exact rational: an integral float prints as "n.0" and other
floats print their decimal digits (every float the embedding produces from
decimal literals and arithmetic on them is a decimal fraction; for a
non-decimal rational the loop stops after 17 digits). -/
def fracDigits : Nat → ℚ → List Char
  | 0, _ => []
  | fuel + 1, q =>
    if q = 0 then []
    else
      let d := ⌊q * 10⌋
      Char.ofNat (48 + d.toNat) :: fracDigits fuel (q * 10 - (d : ℚ))

def pyStr : PyVal → String
  | .vint n => toString n
  | .vstr s => s
  | .vbool b => if b then "True" else "False"
  | .vfloat q =>
    let sign := if q < 0 then "-" else ""
    let a := |q|
    let ip := ⌊a⌋
    let frac := a - (ip : ℚ)
    if frac = 0 then sign ++ toString ip ++ ".0"
    else sign ++ toString ip ++ "." ++ String.mk (fracDigits 17 frac)

/-- Result of evaluating an expression: a value, or a raised error; both
carry the state, since input lines consumed before the raise stay consumed. -/
inductive EvalRes where
  | ok : PyVal → SState → EvalRes
  | err : PyErr → SState → EvalRes
deriving DecidableEq, Repr

/-- Sequence an evaluation result into a continuation, propagating a raised
error unchanged. -/
def evalSeq (r : EvalRes) (k : PyVal → SState → EvalRes) : EvalRes :=
  match r with
  | .err e st => .err e st
  | .ok v st => k v st

/-- Lift the result of a value operation at a state. -/
def apRes (r : Except PyErr PyVal) (st : SState) : EvalRes :=
  match r with
  | .ok v => .ok v st
  | .error e => .err e st

/-- Interpreter.eval.  VARREF of an unbound name defaults to int 0; INP takes
the next stdin line (EOFError when none is left); AND and OR are Python's
short-circuiting operators and return one of the operand values; the
remaining operators evaluate both operands left to right and combine them. -/
def eval : Expr → SState → EvalRes
  | .NUM v, st => .ok v st
  | .STR s, st => .ok (.vstr s) st
  | .BOOL b, st => .ok (.vbool b) st
  | .VARREF x, st => .ok ((dictGet st.vars x).getD (.vint 0)) st
  | .INP, st =>
    match st.inp with
    | [] => .err .eofErr st
    | l :: rest => .ok (.vstr l) ⟨st.vars, rest, st.out⟩
  | .LEN e, st =>
    evalSeq (eval e st) (fun v st2 => apRes (pyLen v) st2)
  | .PL a b, st =>
    evalSeq (eval a st) (fun v1 st1 =>
      evalSeq (eval b st1) (fun v2 st2 => apRes (pyAdd v1 v2) st2))
  | .MN a b, st =>
    evalSeq (eval a st) (fun v1 st1 =>
      evalSeq (eval b st1) (fun v2 st2 => apRes (pySub v1 v2) st2))
  | .DP a b, st =>
    evalSeq (eval a st) (fun v1 st1 =>
      evalSeq (eval b st1) (fun v2 st2 => apRes (pyMul v1 v2) st2))
  | .NP a b, st =>
    evalSeq (eval a st) (fun v1 st1 =>
      evalSeq (eval b st1) (fun v2 st2 => apRes (pyDiv v1 v2) st2))
  | .EQ a b, st =>
    evalSeq (eval a st) (fun v1 st1 =>
      evalSeq (eval b st1) (fun v2 st2 => .ok (.vbool (pyEqB v1 v2)) st2))
  | .NEQ a b, st =>
    evalSeq (eval a st) (fun v1 st1 =>
      evalSeq (eval b st1) (fun v2 st2 => .ok (.vbool (!pyEqB v1 v2)) st2))
  | .LT a b, st =>
    evalSeq (eval a st) (fun v1 st1 =>
      evalSeq (eval b st1) (fun v2 st2 =>
        apRes ((pyLtB v1 v2).map PyVal.vbool) st2))
  | .GT a b, st =>
    evalSeq (eval a st) (fun v1 st1 =>
      evalSeq (eval b st1) (fun v2 st2 =>
        apRes ((pyLtB v2 v1).map PyVal.vbool) st2))
  | .LE a b, st =>
    evalSeq (eval a st) (fun v1 st1 =>
      evalSeq (eval b st1) (fun v2 st2 =>
        apRes ((pyLeB v1 v2).map PyVal.vbool) st2))
  | .GE a b, st =>
    evalSeq (eval a st) (fun v1 st1 =>
      evalSeq (eval b st1) (fun v2 st2 =>
        apRes ((pyLeB v2 v1).map PyVal.vbool) st2))
  | .AND a b, st =>
    evalSeq (eval a st) (fun v1 st1 =>
      if truthy v1 then eval b st1 else .ok v1 st1)
  | .OR a b, st =>
    evalSeq (eval a st) (fun v1 st1 =>
      if truthy v1 then .ok v1 st1 else eval b st1)

/-- The function table built in Interpreter.__init__: exactly the predefined
hello function, whose body prints "hello function". -/
def funcs : List (String × List Stmt) :=
  [("hello", [.SET (.STR "hello function")])]

def fnGet : List (String × List Stmt) → String → Option (List Stmt)
  | [], _ => none
  | (k, v) :: rest, x => if k = x then some v else fnGet rest x

/-- Result of running statements: final state, raised error with the state at
the raise (side effects before it persist), or fuel exhaustion (an artifact
of bounding the wset loop; never produced by any terminating source run). -/
inductive RunRes where
  | ok : SState → RunRes
  | err : PyErr → SState → RunRes
  | timeout : RunRes
deriving DecidableEq, Repr

/-- Bridge an expression evaluation into statement execution, propagating a
raised error. -/
def evalToRun (r : EvalRes) (k : PyVal → SState → RunRes) : RunRes :=
  match r with
  | .err e st => .err e st
  | .ok v st => k v st

/-- Interpreter.run on a statement list.  VarDecl coerces per the declared
type token (INT to int, FLT to float, anything else stores the value as-is);
SET prints; IF runs the then-branch on a truthy condition, otherwise the
else-branch when present; WSET re-evaluates its condition before every
iteration; BLOCK runs its list; FCE inlines the named function body when the
name is in the table and is a silent no-op otherwise; TRY runs the
try-branch and, exactly when it raises, runs the catch-branch, whose own
errors propagate.  A branch stored as None crashes with TypeError when run
(Python indexes None), which inside a try-branch is itself caught. -/
def run : Nat → SState → List Stmt → RunRes
  | _, st, [] => .ok st
  | 0, _, _ :: _ => .timeout
  | fuel + 1, st, s :: rest =>
    let r : RunRes :=
      match s with
      | .VAR tp name e =>
        evalToRun (eval e st) (fun v st1 =>
          if tp = "INT" then
            match pyInt v with
            | .ok n => .ok ⟨dictSet st1.vars name (.vint n), st1.inp, st1.out⟩
            | .error er => .err er st1
          else if tp = "FLT" then
            match pyFloat v with
            | .ok q => .ok ⟨dictSet st1.vars name (.vfloat q), st1.inp, st1.out⟩
            | .error er => .err er st1
          else .ok ⟨dictSet st1.vars name v, st1.inp, st1.out⟩)
      | .SET e =>
        evalToRun (eval e st) (fun v st1 =>
          .ok ⟨st1.vars, st1.inp, st1.out ++ [pyStr v]⟩)
      | .IF c th el =>
        evalToRun (eval c st) (fun v st1 =>
          if truthy v then
            match th with
            | none => .err .typeErr st1
            | some s1 => run fuel st1 [s1]
          else
            match el with
            | none => .ok st1
            | some s2 => run fuel st1 [s2])
      | .WSET c b =>
        evalToRun (eval c st) (fun v st1 =>
          if truthy v then
            match
              (match b with
               | none => RunRes.err .typeErr st1
               | some s1 => run fuel st1 [s1]) with
            | .ok st2 => run fuel st2 [.WSET c b]
            | r2 => r2
          else .ok st1)
      | .BLOCK l => run fuel st l
      | .FCE name =>
        match fnGet funcs name with
        | some body => run fuel st body
        | none => .ok st
      | .TRY tb cb =>
        match
          (match tb with
           | none => RunRes.err .typeErr st
           | some s1 => run fuel st [s1]) with
        | .ok st1 => .ok st1
        | .timeout => .timeout
        | .err _ st1 =>
          match cb with
          | none => .err .typeErr st1
          | some s2 => run fuel st1 [s2]
    match r with
    | .ok st2 => run fuel st2 rest
    | r2 => r2

/-- Running one branch slot the way Interpreter.run receives it from TRY, IF
or WSET (self.run([branch])): a branch that parsed to None raises TypeError
when the run loop indexes it, a real statement runs as a singleton list.
This is exactly the inline branch handling inside run, named for stating
theorems about it. -/
def runOpt (fuel : Nat) (st : SState) : Option Stmt → RunRes
  | none => .err .typeErr st
  | some s => run fuel st [s]

/-- run_code: tokenize, parse, and run the tree on a fresh interpreter state
(empty vars, given stdin, empty stdout); the banner print is outside the
pipeline.  A parse error aborts before any execution. -/
def runProgram (fuel : Nat) (inp : List String) (code : String) :
    Except PErr RunRes :=
  match parse (tokenize code) with
  | .error e => .error e
  | .ok stmts => .ok (run fuel ⟨[], inp, []⟩ stmts)

/-
Helper lemmas about the lexer's first-match-wins alternation.
-/

/-- A hit of the alternation names one of its groups. -/
theorem firstMatch_mem_keys :
    ∀ (l : List (String × Pat)) (cs : List Char) (k : String) (m r : List Char),
      firstMatch l cs = some (k, m, r) → k ∈ l.map Prod.fst := by
  intro l
  induction l with
  | nil => intro cs k m r h; simp [firstMatch] at h
  | cons hd tl ih =>
    intro cs k m r h
    obtain ⟨k0, p⟩ := hd
    rw [firstMatch] at h
    cases hm : matchPat p cs with
    | none =>
      rw [hm] at h
      exact List.mem_cons_of_mem _ (ih cs k m r h)
    | some x =>
      obtain ⟨m0, cs2⟩ := x
      rw [hm] at h
      injection h with h2
      injection h2 with hk _
      exact hk ▸ List.mem_cons_self _ _

/-- The alternation over an appended table tries the left part first. -/
theorem firstMatch_append (l1 l2 : List (String × Pat)) (cs : List Char) :
    firstMatch (l1 ++ l2) cs =
      match firstMatch l1 cs with
      | some x => some x
      | none => firstMatch l2 cs := by
  induction l1 with
  | nil => simp [firstMatch]
  | cons hd tl ih =>
    obtain ⟨k0, p⟩ := hd
    cases hm : matchPat p cs with
    | none => simp [firstMatch, hm, ih]
    | some x => simp [firstMatch, hm]

/-- When the whole alternation fails, every single pattern fails. -/
theorem firstMatch_none_of (l : List (String × Pat)) (cs : List Char)
    (h : firstMatch l cs = none) :
    ∀ kp ∈ l, matchPat kp.2 cs = none := by
  induction l with
  | nil => intro kp hkp; simp at hkp
  | cons hd tl ih =>
    intro kp hkp
    obtain ⟨k0, p⟩ := hd
    rw [firstMatch] at h
    cases hm : matchPat p cs with
    | some x => rw [hm] at h; simp at h
    | none =>
      rw [hm] at h
      rcases List.mem_cons.mp hkp with rfl | hkp2
      · exact hm
      · exact ih h kp hkp2

/-- A match of the literal "len" forces a match of the literal "le". -/
theorem le_matches_of_len (cs : List Char) (m r : List Char)
    (h : matchPat (.litP "len") cs = some (m, r)) :
    matchPat (.litP "le") cs ≠ none := by
  rw [matchPat] at h
  by_cases hp : "len".toList.isPrefixOf cs
  · have hp2 : "le".toList.isPrefixOf cs = true := by
      rw [List.isPrefixOf_iff_prefix] at hp ⊢
      exact List.IsPrefix.trans (by decide) hp
    rw [matchPat, hp2]
    simp
  · rw [if_neg hp] at h
    exact absurd h (by simp)

/-- The LEN group can never win the alternation: the earlier LE entry matches
the first two characters of any input that starts with "len". -/
theorem firstMatch_ne_LEN (cs : List Char) (k : String) (m r : List Char)
    (h : firstMatch token_spec cs = some (k, m, r)) : k ≠ "LEN" := by
  intro hk
  subst hk
  have hsplit : token_spec =
      ([("NUMBER", .numberP), ("STRING", .stringP),
        ("EQ", .litP "eq"), ("NEQ", .litP "neq"), ("LT", .litP "lt"),
        ("GT", .litP "gt"), ("LE", .litP "le"), ("GE", .litP "ge"),
        ("AND", .litP "and"), ("OR", .litP "or"), ("PL", .litP "pl"),
        ("MN", .litP "mn"), ("DP", .litP "dp"), ("NP", .litP "np"),
        ("VAR", .litP "var"), ("INT", .litP "int"), ("FLT", .litP "flt"),
        ("BOOL", .litP "bool"), ("SET", .litP "set"), ("IF", .litP "if"),
        ("WSET", .litP "wset"), ("FCE", .litP "fce"), ("TRY", .litP "try"),
        ("CATCH", .litP "catch"), ("TRUE", .litP "true"),
        ("FALSE", .litP "false")] : List (String × Pat)) ++
      (("LEN", .litP "len") ::
       [("INP", .litP "inp"), ("IDENT", .identP), ("ASSIGN", .litP "="),
        ("LBRACE", .litP "\x7b"), ("RBRACE", .litP "\x7d"),
        ("COLON", .litP ":"), ("SKIP", .skipP), ("NEWLINE", .newlineP)]) := by
    rfl
  rw [hsplit, firstMatch_append] at h
  cases hm1 : firstMatch
      ([("NUMBER", .numberP), ("STRING", .stringP),
        ("EQ", .litP "eq"), ("NEQ", .litP "neq"), ("LT", .litP "lt"),
        ("GT", .litP "gt"), ("LE", .litP "le"), ("GE", .litP "ge"),
        ("AND", .litP "and"), ("OR", .litP "or"), ("PL", .litP "pl"),
        ("MN", .litP "mn"), ("DP", .litP "dp"), ("NP", .litP "np"),
        ("VAR", .litP "var"), ("INT", .litP "int"), ("FLT", .litP "flt"),
        ("BOOL", .litP "bool"), ("SET", .litP "set"), ("IF", .litP "if"),
        ("WSET", .litP "wset"), ("FCE", .litP "fce"), ("TRY", .litP "try"),
        ("CATCH", .litP "catch"), ("TRUE", .litP "true"),
        ("FALSE", .litP "false")] : List (String × Pat)) cs with
  | some x =>
    rw [hm1] at h
    have hkeys := firstMatch_mem_keys _ cs "LEN" m r (by rw [hm1]; exact h)
    revert hkeys
    decide
  | none =>
    rw [hm1] at h
    rw [firstMatch] at h
    cases hm2 : matchPat (.litP "len") cs with
    | none =>
      rw [hm2] at h
      have hkeys := firstMatch_mem_keys _ cs "LEN" m r h
      revert hkeys
      decide
    | some x2 =>
      obtain ⟨m0, cs2⟩ := x2
      have hle := firstMatch_none_of _ cs hm1 ("LE", .litP "le") (by decide)
      exact le_matches_of_len cs m0 cs2 hm2 hle

/-- Every token the scanner emits has a type other than LEN (shadowed by LE),
SKIP and NEWLINE (both dropped). -/
theorem scanLine_mem_type :
    ∀ (fuel : Nat) (cs : List Char) (t : Token), t ∈ scanLine fuel cs →
      t.type ≠ "LEN" ∧ t.type ≠ "SKIP" ∧ t.type ≠ "NEWLINE" := by
  intro fuel
  induction fuel with
  | zero => intro cs t ht; simp [scanLine] at ht
  | succ f ih =>
    intro cs t ht
    match cs with
    | [] => simp [scanLine] at ht
    | c :: cs2 =>
      rw [scanLine] at ht
      cases hm : firstMatch token_spec (c :: cs2) with
      | none => rw [hm] at ht; exact ih cs2 t ht
      | some x =>
        obtain ⟨k, m, rest⟩ := x
        rw [hm] at ht
        have ht2 : t ∈ (match mkToken k m with
            | some tk => tk :: scanLine f rest
            | none => scanLine f rest) := ht
        have hk : k ≠ "LEN" := firstMatch_ne_LEN _ _ _ _ hm
        cases hmk : mkToken k m with
        | none => rw [hmk] at ht2; exact ih rest t ht2
        | some tk =>
          rw [hmk] at ht2
          rcases List.mem_cons.mp ht2 with rfl | ht3
          · rw [mkToken] at hmk
            by_cases hN : k = "NUMBER"
            · rw [if_pos hN] at hmk
              injection hmk with hmk
              rw [← hmk]
              exact ⟨by simp, by simp, by simp⟩
            · rw [if_neg hN] at hmk
              by_cases hS : k = "STRING"
              · rw [if_pos hS] at hmk
                injection hmk with hmk
                rw [← hmk]
                exact ⟨by simp, by simp, by simp⟩
              · rw [if_neg hS] at hmk
                by_cases hsk : k = "SKIP" || k = "NEWLINE"
                · rw [if_pos hsk] at hmk; exact absurd hmk (by simp)
                · rw [if_neg hsk] at hmk
                  injection hmk with hmk
                  rw [← hmk]
                  simp only [Bool.or_eq_true, decide_eq_true_eq, not_or] at hsk
                  exact ⟨hk, hsk.1, hsk.2⟩
          · exact ih rest t ht3

/-- Lift scanLine_mem_type through the line splitting of tokenize. -/
theorem tokenize_mem_type (code : String) (t : Token) (ht : t ∈ tokenize code) :
    t.type ≠ "LEN" ∧ t.type ≠ "SKIP" ∧ t.type ≠ "NEWLINE" := by
  rw [tokenize, List.mem_flatten] at ht
  obtain ⟨l, hl, htl⟩ := ht
  rw [List.mem_map] at hl
  obtain ⟨line, _, rfl⟩ := hl
  exact scanLine_mem_type _ _ _ htl

/-
Helper lemmas about the parser's statement dispatch.
-/

/-- A token whose type is none of the six statement keywords is consumed
silently by statement and produces nothing, whether it is a bare literal or
an unrecognized token. -/
theorem statement_skip (fuel : Nat) (t : Token) (rest : List Token)
    (h : t.type ∉ (["VAR", "SET", "IF", "WSET", "FCE", "TRY"] : List String)) :
    statement (fuel + 1) (t :: rest) = .ok (none, rest) := by
  simp only [List.mem_cons, List.not_mem_nil, or_false, not_or] at h
  obtain ⟨h1, h2, h3, h4, h5, h6⟩ := h
  by_cases hl : t.type ∈ (["STRING", "NUMBER", "TRUE", "FALSE"] : List String)
  · rw [statement, if_pos hl]
  · rw [statement, if_neg hl, if_neg h1, if_neg h2, if_neg h3, if_neg h4,
      if_neg h5, if_neg h6]

/-- With fuel above the token count, a token list consisting only of
non-keyword tokens parses to the empty program with no error. -/
theorem parseGo_skip_all :
    ∀ (ts : List Token) (fuel : Nat),
      (∀ t ∈ ts, t.type ∉ (["VAR", "SET", "IF", "WSET", "FCE", "TRY"] : List String)) →
      ts.length < fuel → parseGo fuel ts = .ok [] := by
  intro ts
  induction ts with
  | nil => intro fuel _ _; cases fuel <;> rw [parseGo]
  | cons t rest ih =>
    intro fuel hall hlen
    obtain ⟨f1, rfl⟩ : ∃ k, fuel = k + 1 :=
      ⟨fuel - 1, by omega⟩
    obtain ⟨f2, rfl⟩ : ∃ k, f1 = k + 1 := by
      refine ⟨f1 - 1, ?_⟩
      have := hlen
      simp only [List.length_cons] at this
      omega
    rw [parseGo, statement_skip _ _ _ (hall t (List.mem_cons_self _ _))]
    refine ih (f2 + 1) (fun u hu => hall u (List.mem_cons_of_mem _ hu)) ?_
    simp only [List.length_cons] at hlen
    omega

/-
Claim theorems.
-/

/-- C1 (counterexample): the claim says an `and` whose right operand raises
still raises when the left operand is falsy, and likewise `or` with a truthy
left operand.  In the code both evaluate to the left operand's value with no
error, even though the right operand alone raises ZeroDivisionError. -/
theorem and_or_counterexample :
    eval (.AND (.BOOL false) (.NP (.NUM (.vint 1)) (.NUM (.vint 0)))) ⟨[], [], []⟩ =
      .ok (.vbool false) ⟨[], [], []⟩ ∧
    eval (.OR (.BOOL true) (.NP (.NUM (.vint 1)) (.NUM (.vint 0)))) ⟨[], [], []⟩ =
      .ok (.vbool true) ⟨[], [], []⟩ ∧
    eval (.NP (.NUM (.vint 1)) (.NUM (.vint 0))) ⟨[], [], []⟩ =
      .err .zeroDiv ⟨[], [], []⟩ :=
  ⟨by decide, by decide, by decide⟩

/-- C1 (amended): eval of `and`/`or` evaluates the left operand and
short-circuits exactly as the host language's operators do: `and` returns
the left value without touching the right operand when it is falsy, `or`
returns the left value when it is truthy, and otherwise the whole
expression behaves as the evaluation of the right operand (so a
right-operand error is raised only when the right operand is reached); a
left-operand error always propagates. -/
theorem and_or_python_semantics :
    (∀ (a b : Expr) (st st1 : SState) (v : PyVal),
      eval a st = .ok v st1 → truthy v = false →
      eval (.AND a b) st = .ok v st1) ∧
    (∀ (a b : Expr) (st st1 : SState) (v : PyVal),
      eval a st = .ok v st1 → truthy v = true →
      eval (.AND a b) st = eval b st1) ∧
    (∀ (a b : Expr) (st st1 : SState) (v : PyVal),
      eval a st = .ok v st1 → truthy v = true →
      eval (.OR a b) st = .ok v st1) ∧
    (∀ (a b : Expr) (st st1 : SState) (v : PyVal),
      eval a st = .ok v st1 → truthy v = false →
      eval (.OR a b) st = eval b st1) ∧
    (∀ (a b : Expr) (st st1 : SState) (e : PyErr),
      eval a st = .err e st1 →
      eval (.AND a b) st = .err e st1 ∧ eval (.OR a b) st = .err e st1) := by
  refine ⟨?_, ?_, ?_, ?_, ?_⟩
  · intro a b st st1 v h1 h2; simp [eval, evalSeq, h1, h2]
  · intro a b st st1 v h1 h2; simp [eval, evalSeq, h1, h2]
  · intro a b st st1 v h1 h2; simp [eval, evalSeq, h1, h2]
  · intro a b st st1 v h1 h2; simp [eval, evalSeq, h1, h2]
  · intro a b st st1 e h1
    exact ⟨by simp [eval, evalSeq, h1], by simp [eval, evalSeq, h1]⟩

/-- Witness for and_or_python_semantics at concrete inputs. -/
theorem and_or_python_semantics_witness :
    eval (.AND (.BOOL false) .INP) ⟨[], [], []⟩ = .ok (.vbool false) ⟨[], [], []⟩ ∧
    eval (.OR (.BOOL true) .INP) ⟨[], [], []⟩ = .ok (.vbool true) ⟨[], [], []⟩ :=
  ⟨and_or_python_semantics.1 _ _ _ _ _ (by decide) (by decide),
   and_or_python_semantics.2.2.1 _ _ _ _ _ (by decide) (by decide)⟩

/-- C2: the LE entry precedes LEN in the first-match-wins table, so the text
"len" lexes as LE followed by the identifier "n", no input ever yields a LEN
token, and a program with `len` at factor position fails with "bad expr". -/
theorem le_shadows_len :
    tokenize "len" = [⟨"LE", .vstr "le"⟩, ⟨"IDENT", .vstr "n"⟩] ∧
    (∀ (code : String) (t : Token), t ∈ tokenize code → t.type ≠ "LEN") ∧
    parse (tokenize "set len 5") = .error .badExpr :=
  ⟨by decide, fun code t ht => (tokenize_mem_type code t ht).1, by rfl⟩

/-- Witness for le_shadows_len at a concrete token of a concrete program. -/
theorem le_shadows_len_witness :
    (⟨"LE", .vstr "le"⟩ : Token) ∈ tokenize "len" ∧
    (⟨"LE", .vstr "le"⟩ : Token).type ≠ "LEN" :=
  ⟨by decide, le_shadows_len.2.1 "len" _ (by decide)⟩

/-- C3: the expression grammar is flat and strictly left-associative: a
pl-then-dp chain parses with the multiplication at the root wrapped around
the sum, and evaluates as (a+b)*c; in particular "2 pl 3 dp 4" evaluates to
20 rather than 14. -/
theorem expr_flat_left_assoc :
    (∀ (a b c : Int) (st : SState),
      expr [⟨"NUMBER", .vint a⟩, ⟨"PL", .vstr "pl"⟩, ⟨"NUMBER", .vint b⟩,
            ⟨"DP", .vstr "dp"⟩, ⟨"NUMBER", .vint c⟩] =
        .ok (.DP (.PL (.NUM (.vint a)) (.NUM (.vint b))) (.NUM (.vint c)), []) ∧
      eval (.DP (.PL (.NUM (.vint a)) (.NUM (.vint b))) (.NUM (.vint c))) st =
        .ok (.vint ((a + b) * c)) st) ∧
    expr (tokenize "2 pl 3 dp 4") =
      .ok (.DP (.PL (.NUM (.vint 2)) (.NUM (.vint 3))) (.NUM (.vint 4)), []) ∧
    eval (.DP (.PL (.NUM (.vint 2)) (.NUM (.vint 3))) (.NUM (.vint 4)))
        ⟨[], [], []⟩ = .ok (.vint 20) ⟨[], [], []⟩ :=
  ⟨fun a b c st => ⟨rfl, rfl⟩, by rfl, by decide⟩

/-- C5: evaluating a variable reference never fails: an unbound name yields
the int 0, a bound name yields its stored value, in both cases with the
state unchanged. -/
theorem varref_default_zero :
    (∀ (st : SState) (name : String), dictGet st.vars name = none →
      eval (.VARREF name) st = .ok (.vint 0) st) ∧
    (∀ (st : SState) (name : String) (v : PyVal), dictGet st.vars name = some v →
      eval (.VARREF name) st = .ok v st) := by
  constructor
  · intro st name h; simp [eval, h]
  · intro st name v h; simp [eval, h]

/-- Witness for varref_default_zero on a concrete environment. -/
theorem varref_default_zero_witness :
    eval (.VARREF "x") ⟨[("y", .vint 5)], [], []⟩ =
      .ok (.vint 0) ⟨[("y", .vint 5)], [], []⟩ ∧
    eval (.VARREF "y") ⟨[("y", .vint 5)], [], []⟩ =
      .ok (.vint 5) ⟨[("y", .vint 5)], [], []⟩ :=
  ⟨varref_default_zero.1 _ "x" (by decide),
   varref_default_zero.2 _ "y" _ (by decide)⟩

/-- C7: evaluating Len(Str(s)) returns the character count of s with no
error, for every string s and in every state. -/
theorem len_str_charcount (s : String) (st : SState) :
    eval (.LEN (.STR s)) st = .ok (.vint (s.length : Int)) st := rfl

/-- C4: the try-branch runs first and its result stands when it succeeds; on
any raised error execution continues with the catch-branch from the state at
the raise, and whatever the catch-branch does (including raising again) is
the result of the whole statement; concretely, try-ing a division by zero
prints exactly "caught". -/
theorem trycatch_semantics :
    (∀ (fuel : Nat) (st st1 : SState) (tb cb : Option Stmt),
      runOpt fuel st tb = .ok st1 →
      run (fuel + 1) st [.TRY tb cb] = .ok st1) ∧
    (∀ (fuel : Nat) (st st1 : SState) (tb cb : Option Stmt) (e : PyErr),
      runOpt fuel st tb = .err e st1 →
      run (fuel + 1) st [.TRY tb cb] = runOpt fuel st1 cb) ∧
    runProgram 20 [] "try \x7b set 1 np 0 \x7d catch \x7b set \"caught\" \x7d" =
      .ok (.ok ⟨[], [], ["caught"]⟩) := by
  refine ⟨?_, ?_, by rfl⟩
  · intro fuel st st1 tb cb h
    cases tb with
    | none => simp [runOpt] at h
    | some s1 =>
      simp only [runOpt] at h
      simp [run, h]
  · intro fuel st st1 tb cb e h
    cases tb with
    | none =>
      simp only [runOpt] at h
      injection h with h1 h2
      subst h2
      cases cb with
      | none => simp [run, runOpt]
      | some s2 =>
        simp only [run, runOpt]
        cases hrr : run fuel st [s2] <;> simp [run, hrr]
    | some s1 =>
      simp only [runOpt] at h
      cases cb with
      | none => simp [run, runOpt, h]
      | some s2 =>
        simp only [run, runOpt, h]
        cases hrr : run fuel st1 [s2] <;> simp [run, hrr]

/-- Witness for trycatch_semantics: a succeeding try-branch keeps its
result, a failing one hands over to the catch-branch. -/
theorem trycatch_semantics_witness :
    run 2 ⟨[], [], []⟩ [.TRY (some (.SET (.STR "ok"))) none] =
      .ok ⟨[], [], ["ok"]⟩ ∧
    run 2 ⟨[], [], []⟩
        [.TRY (some (.SET (.NP (.NUM (.vint 1)) (.NUM (.vint 0)))))
          (some (.SET (.STR "caught")))] =
      runOpt 1 ⟨[], [], []⟩ (some (.SET (.STR "caught"))) :=
  ⟨trycatch_semantics.1 1 _ _ _ _ (by decide),
   trycatch_semantics.2.1 1 _ _ _ _ .zeroDiv (by decide)⟩

/-- C6: VarDecl evaluates the initializer, then stores under the declared
name: with type token INT the int() coercion (truncation on floats), with
FLT the float() coercion, and with VAR or BOOL the value unchanged;
concretely `var int x = 3 pl 4` then `set x` prints "7". -/
theorem vardecl_coercion :
    (∀ (fuel : Nat) (st st1 : SState) (tp name : String) (e : Expr) (v : PyVal),
      eval e st = .ok v st1 → tp = "VAR" ∨ tp = "BOOL" →
      run (fuel + 1) st [.VAR tp name e] =
        .ok ⟨dictSet st1.vars name v, st1.inp, st1.out⟩) ∧
    (∀ (fuel : Nat) (st st1 : SState) (name : String) (e : Expr) (v : PyVal) (n : Int),
      eval e st = .ok v st1 → pyInt v = .ok n →
      run (fuel + 1) st [.VAR "INT" name e] =
        .ok ⟨dictSet st1.vars name (.vint n), st1.inp, st1.out⟩) ∧
    (∀ (fuel : Nat) (st st1 : SState) (name : String) (e : Expr) (v : PyVal) (q : ℚ),
      eval e st = .ok v st1 → pyFloat v = .ok q →
      run (fuel + 1) st [.VAR "FLT" name e] =
        .ok ⟨dictSet st1.vars name (.vfloat q), st1.inp, st1.out⟩) ∧
    (∀ q : ℚ, pyInt (.vfloat q) = .ok (if q < 0 then ⌈q⌉ else ⌊q⌋)) ∧
    runProgram 20 [] "var int x = 3 pl 4\nset x" =
      .ok (.ok ⟨[("x", .vint 7)], [], ["7"]⟩) := by
  refine ⟨?_, ?_, ?_, fun q => rfl, by rfl⟩
  · intro fuel st st1 tp name e v h1 h2
    rcases h2 with rfl | rfl <;> simp [run, evalToRun, h1]
  · intro fuel st st1 name e v n h1 h2
    simp [run, evalToRun, h1, h2]
  · intro fuel st st1 name e v q h1 h2
    simp [run, evalToRun, h1, h2]

/-- Witness for vardecl_coercion: an untyped slot stores the value as-is, an
INT slot stores the int() coercion of the initializer. -/
theorem vardecl_coercion_witness :
    run 1 ⟨[], [], []⟩ [.VAR "VAR" "x" (.NUM (.vbool true))] =
      .ok ⟨[("x", .vbool true)], [], []⟩ ∧
    run 1 ⟨[], [], []⟩ [.VAR "INT" "x" (.NUM (.vint 7))] =
      .ok ⟨[("x", .vint 7)], [], []⟩ :=
  ⟨vardecl_coercion.1 0 ⟨[], [], []⟩ ⟨[], [], []⟩ "VAR" "x" (.NUM (.vbool true))
      (.vbool true) rfl (Or.inl rfl),
   vardecl_coercion.2.1 0 ⟨[], [], []⟩ ⟨[], [], []⟩ "x" (.NUM (.vint 7))
      (.vint 7) 7 rfl rfl⟩

/-- C8: tokenize is a total function on source texts; characters matched by
no pattern are skipped with nothing emitted, and the SKIP and NEWLINE
matches (whitespace) never surface as tokens. -/
theorem tokenize_total_skips :
    (∀ (code : String) (t : Token), t ∈ tokenize code →
      t.type ≠ "SKIP" ∧ t.type ≠ "NEWLINE") ∧
    tokenize "@ ~ \t " = [] ∧
    tokenize "a$b" = [⟨"IDENT", .vstr "a"⟩, ⟨"IDENT", .vstr "b"⟩] :=
  ⟨fun code t ht => (tokenize_mem_type code t ht).2, by decide, by decide⟩

/-- Witness for tokenize_total_skips at a token of a concrete source. -/
theorem tokenize_total_skips_witness :
    (⟨"IDENT", .vstr "a"⟩ : Token).type ≠ "SKIP" ∧
    (⟨"IDENT", .vstr "a"⟩ : Token).type ≠ "NEWLINE" :=
  tokenize_total_skips.1 "a$b" _ (by decide)

/-- C9: the statement dispatch consumes a bare literal token without
producing a node or an error, and likewise skips any other token that is not
one of the six statement keywords, so a program of stray tokens parses to
the empty statement list. -/
theorem stray_tokens_skipped :
    (∀ ts : List Token,
      (∀ t ∈ ts, t.type ∉ (["VAR", "SET", "IF", "WSET", "FCE", "TRY"] : List String)) →
      parse ts = .ok []) ∧
    (∀ (fuel : Nat) (t : Token) (rest : List Token),
      t.type ∈ (["STRING", "NUMBER", "TRUE", "FALSE"] : List String) →
      statement (fuel + 1) (t :: rest) = .ok (none, rest)) ∧
    parse (tokenize "\"abc\" 5 true false") = .ok [] := by
  refine ⟨?_, ?_, by rfl⟩
  · intro ts h
    rw [parse]
    exact parseGo_skip_all ts _ h (by omega)
  · intro fuel t rest h
    rw [statement, if_pos h]

/-- Witness for stray_tokens_skipped on concrete stray tokens. -/
theorem stray_tokens_skipped_witness :
    parse [⟨"STRING", .vstr "abc"⟩, ⟨"CATCH", .vstr "catch"⟩] = .ok [] ∧
    statement 1 [⟨"NUMBER", .vint 5⟩] = .ok (none, []) :=
  ⟨stray_tokens_skipped.1 _ (by decide), stray_tokens_skipped.2.1 0 _ _ (by decide)⟩

/-- C10: fce of a name in the function table runs its body inline on the
shared state, so `fce hello` appends the line "hello function"; fce of an
absent name leaves the state untouched and raises nothing. -/
theorem callfunc_semantics :
    (∀ (fuel : Nat) (st : SState),
      run (fuel + 3) st [.FCE "hello"] =
        .ok ⟨st.vars, st.inp, st.out ++ ["hello function"]⟩) ∧
    (∀ (fuel : Nat) (st : SState) (name : String),
      fnGet funcs name = none → run (fuel + 1) st [.FCE name] = .ok st) ∧
    runProgram 20 [] "fce hello" = .ok (.ok ⟨[], [], ["hello function"]⟩) ∧
    runProgram 20 [] "fce missingName" = .ok (.ok ⟨[], [], []⟩) := by
  refine ⟨fun fuel st => rfl, ?_, by rfl, by rfl⟩
  intro fuel st name h
  simp [run, h]

/-- Witness for callfunc_semantics: a missing name is a silent no-op. -/
theorem callfunc_semantics_witness :
    run 3 ⟨[], [], []⟩ [.FCE "nosuch"] = .ok ⟨[], [], []⟩ :=
  callfunc_semantics.2.1 2 _ "nosuch" (by rfl)

end SetLang

